import Mathlib

/-!
Verification of the vigilance compositing engine
(`generate_vigilance.py`) against its natural-language specification.

The Python source is shallowly embedded: Python strings are `String`
(manipulated through their character lists so that everything reduces in
the kernel), Python numbers are `ℚ`, fallible Python code returns
`PyResult` (an exception or a value), and the external collaborators
(the Elasticsearch resolver and the GDAL raster backend) are abstracted
as function parameters.
-/

/-- The Python exceptions that the embedded code can raise. -/
inductive PyErr where
  | indexError
  | valueError
  | openError
deriving DecidableEq

/-- Result of a piece of Python code: a value or an uncaught exception. -/
inductive PyResult (α : Type) where
  | ok : α → PyResult α
  | exn : PyErr → PyResult α
deriving DecidableEq

/-- Is the result a value (no exception)? -/
def PyResult.isOk : PyResult α → Bool
  | .ok _ => true
  | .exn _ => false

/-- Split a character list at every occurrence of `c`.
Mirrors Python `str.split(c)`: the empty string yields `[[]]`. -/
def splitChar (c : Char) : List Char → List (List Char)
  | [] => [[]]
  | x :: xs =>
    let r := splitChar c xs
    if x = c then [] :: r
    else
      match r with
      | [] => [[x]]
      | y :: ys => (x :: y) :: ys

/-- Python `s.split(c)` for a one-character separator. -/
def pySplit (s : String) (c : Char) : List String :=
  (splitChar c s.data).map (fun l => String.mk l)

/-- Whitespace characters stripped by Python `int()` / `float()`. -/
def isPySpace (c : Char) : Bool :=
  c = ' ' || c = '\t' || c = '\n' || c = '\r'

/-- Strip leading and trailing whitespace from a character list. -/
def trimChars (l : List Char) : List Char :=
  ((l.dropWhile isPySpace).reverse.dropWhile isPySpace).reverse

/-- Numeric value of a list of decimal digits. -/
def digitsVal (l : List Char) : Nat :=
  l.foldl (fun a c => a * 10 + (c.toNat - 48)) 0

/-- Value of a decimal literal with integer part `int` and fractional
part `frac` (either possibly empty, not both), negated when `sign`. -/
def parseDec (sign : Bool) (int frac : List Char) : Option ℚ :=
  if int.isEmpty && frac.isEmpty then none
  else if int.all Char.isDigit && frac.all Char.isDigit then
    let m : ℚ := mkRat (digitsVal int * 10 ^ frac.length + digitsVal frac) (10 ^ frac.length)
    some (if sign then -m else m)
  else none

/-- Helper for `pyFloat`: parse an unsigned decimal literal,
splitting at a possible decimal point. -/
def pyFloatCore (sign : Bool) (l : List Char) : Option ℚ :=
  let int := l.takeWhile (fun c => !(c = '.'))
  match l.dropWhile (fun c => !(c = '.')) with
  | [] => parseDec sign int []
  | _ :: frac => if frac.contains '.' then none else parseDec sign int frac

/-- Models Python `float(s)` on plain decimal literals with an optional
sign and optional decimal point (no exponents, underscores or special
values, which do not occur in this program's inputs);
`none` models `ValueError`. -/
def pyFloat (s : String) : Option ℚ :=
  match trimChars s.data with
  | '-' :: rest => pyFloatCore true rest
  | '+' :: rest => pyFloatCore false rest
  | rest => pyFloatCore false rest

/-- Models Python `int(s)` on plain decimal literals with an optional
sign (no underscores, which do not occur in this program's inputs);
`none` models `ValueError`. -/
def pyIntStr (s : String) : Option Int :=
  match trimChars s.data with
  | '-' :: rest =>
    if !rest.isEmpty && rest.all Char.isDigit then some (-(digitsVal rest : Int))
    else none
  | '+' :: rest =>
    if !rest.isEmpty && rest.all Char.isDigit then some (digitsVal rest : Int)
    else none
  | rest =>
    if !rest.isEmpty && rest.all Char.isDigit then some (digitsVal rest : Int)
    else none

/-- One past the index of the last occurrence of `c`, 0 when absent:
Python `s.rfind(c) + 1`. -/
def posAfterLast (c : Char) : List Char → Nat
  | [] => 0
  | x :: xs =>
    let r := posAfterLast c xs
    if r > 0 then r + 1
    else if x = c then 1 else 0

/-- The data extracted from one layer identifier by the body of the
loop in `valid_layer` (lines 214-224 of the source). -/
structure ParsedLayer where
  model : String
  prefix_ : String
  sufix : String
  treshold : ℚ
deriving DecidableEq

/-- The loop body of `valid_layer` for one layer string: split on dots,
extract `model = layer_[0]`, `prefix_ = layer_[2]`,
`sufix_ = layer_[3][0:4]`, and the threshold magnitude after the last
letter E (with the fractional continuation when the identifier has five
segments).  Exceptions: `IndexError` for fewer than four segments,
`ValueError` for a non-numeric threshold fragment. -/
def parse_one (layer : String) : PyResult ParsedLayer :=
  match pySplit layer '.' with
  | s0 :: _ :: s2 :: s3 :: rest =>
    let sufix := String.mk (s3.data.take 4)
    let frag := s3.data.drop (posAfterLast 'E' s3.data)
    match rest with
    | [s4] =>
      match pyFloatCore false (frag ++ '.' :: s4.data) with
      | some q => .ok ⟨s0, s2, sufix, q⟩
      | none => .exn .valueError
    | _ =>
      match pyIntStr (String.mk frag) with
      | some n => .ok ⟨s0, s2, sufix, (n : ℚ)⟩
      | none => .exn .valueError
  | _ => .exn .indexError

/-- The loop of `valid_layer`: parse each layer in order, returning
`none` (the early `return None, None, None, None`) as soon as a suffix
code is neither `ERGE` nor `ERLE`, and propagating exceptions. -/
def parse_all : List String → PyResult (Option (List ParsedLayer))
  | [] => .ok (some [])
  | l :: ls =>
    match parse_one l with
    | .exn e => .exn e
    | .ok p =>
      if p.sufix = "ERGE" ∨ p.sufix = "ERLE" then
        match parse_all ls with
        | .exn e => .exn e
        | .ok none => .ok none
        | .ok (some ps) => .ok (some (p :: ps))
      else .ok none

/-- `valid_layer` (source lines 195-245): parse and validate the layer
identifiers.  After the loop, compare `prefix[0] == prefix[1]`,
`prefix[1] == prefix[2]`, `sufix[0] == sufix[1]`, `sufix[1] == sufix[2]`
(short-circuit order as in Python, raising `IndexError` when an index
is out of range) and return `(sufix[0], prefix[0], models[0],
tresholds)` on success, `none` on a validation failure.
The `models` entries are never compared. -/
def valid_layer (layers : List String) :
    PyResult (Option (String × String × String × List ℚ)) :=
  match parse_all layers with
  | .exn e => .exn e
  | .ok none => .ok none
  | .ok (some ps) =>
    match ps with
    | [] => .exn .indexError
    | [_] => .exn .indexError
    | [p0, p1] =>
      if p0.prefix_ = p1.prefix_ then .exn .indexError else .ok none
    | p0 :: p1 :: p2 :: _ =>
      if p0.prefix_ = p1.prefix_ then
        if p1.prefix_ = p2.prefix_ then
          if p0.sufix = p1.sufix then
            if p1.sufix = p2.sufix then
              .ok (some (p0.sufix, p0.prefix_, p0.model, ps.map ParsedLayer.treshold))
            else .ok none
          else .ok none
        else .ok none
      else .ok none

/-- The conversion loop of `convert_bbox`: `float()` every entry,
raising `ValueError` on the first entry that is not a number. -/
def floatList : List String → PyResult (List ℚ)
  | [] => .ok []
  | s :: ss =>
    match pyFloat s with
    | none => .exn .valueError
    | some q =>
      match floatList ss with
      | .exn e => .exn e
      | .ok qs => .ok (q :: qs)

/-- The range check of `convert_bbox` (source lines 188-192), with
Python's left-to-right short-circuit evaluation: `bbox[2]` is only
read once `bbox[0] >= -180` holds, and `bbox[3]` only once the outer
condition and `bbox[1] >= -90` hold, so short lists raise `IndexError`
only on those paths. -/
def bbox_check : List ℚ → PyResult (Option (List ℚ))
  | [] => .exn .indexError
  | [b0] => if b0 ≥ -180 then .exn .indexError else .ok none
  | [b0, _] => if b0 ≥ -180 then .exn .indexError else .ok none
  | [b0, b1, b2] =>
    if b0 ≥ -180 then
      if b0 < b2 ∧ b2 ≤ 180 then
        if b1 ≥ -90 then .exn .indexError else .ok none
      else .ok none
    else .ok none
  | b0 :: b1 :: b2 :: b3 :: rest =>
    if b0 ≥ -180 then
      if b0 < b2 ∧ b2 ≤ 180 then
        if b1 ≥ -90 then
          if b1 < b3 ∧ b3 ≤ 90 then .ok (some (b0 :: b1 :: b2 :: b3 :: rest))
          else .ok none
        else .ok none
      else .ok none
    else .ok none

/-- `convert_bbox` (source lines 175-192): convert every entry to a
number, then validate the ranges; `none` models `return None`. -/
def convert_bbox (bbox : List String) : PyResult (Option (List ℚ)) :=
  match floatList bbox with
  | .exn e => .exn e
  | .ok qs => bbox_check qs

/-- `band_ordre_G` (source lines 330-353): three conditional exchanges
sorting the triple of band indices in ascending order. -/
def band_ordre_G (bands : Int × Int × Int) : Int × Int × Int :=
  let (b0, b1, b2) := bands
  let (b0, b1) := if b0 > b1 then (b1, b0) else (b0, b1)
  let (b1, b2) := if b1 > b2 then (b2, b1) else (b1, b2)
  let (b0, b1) := if b0 > b1 then (b1, b0) else (b0, b1)
  (b0, b1, b2)

/-- `band_ordre_L` (source lines 356-379): three conditional exchanges
sorting the triple of band indices in descending order. -/
def band_ordre_L (bands : Int × Int × Int) : Int × Int × Int :=
  let (b0, b1, b2) := bands
  let (b0, b1) := if b0 < b1 then (b1, b0) else (b0, b1)
  let (b1, b2) := if b1 < b2 then (b2, b1) else (b1, b2)
  let (b0, b1) := if b0 < b1 then (b1, b0) else (b0, b1)
  (b0, b1, b2)

/-- The three components of a triple as a list. -/
def tripleList (t : Int × Int × Int) : List Int :=
  [t.1, t.2.1, t.2.2]

/-- `band_ordre_G` as applied to the band list (always of length 3 at
its call site; other lengths index out of range). -/
def band_ordre_G_list : List Int → PyResult (List Int)
  | [a, b, c] => .ok (tripleList (band_ordre_G (a, b, c)))
  | _ => .exn .indexError

/-- `band_ordre_L` as applied to the band list (always of length 3 at
its call site; other lengths index out of range). -/
def band_ordre_L_list : List Int → PyResult (List Int)
  | [a, b, c] => .ok (tripleList (band_ordre_L (a, b, c)))
  | _ => .exn .indexError

/-- The band number of one resolved file in `get_bands`:
`int(file.split('=')[-1])`. -/
def bandOf (file_ : String) : PyResult Int :=
  match pyIntStr ((pySplit file_ '=').getLastD "") with
  | some n => .ok n
  | none => .exn .valueError

/-- The band numbers of all resolved files, in order. -/
def bandsOf : List String → PyResult (List Int)
  | [] => .ok []
  | f :: fs =>
    match bandOf f with
    | .exn e => .exn e
    | .ok b =>
      match bandsOf fs with
      | .exn e => .exn e
      | .ok bs => .ok (b :: bs)

/-- The raster path extracted by `get_bands` from the first resolved
file only: drop the query string (everything from `?`) and the first
six characters. -/
def pathOf (f0 : String) : String :=
  String.mk ((((pySplit f0 '?').headD "").data).drop 6)

/-- `get_bands` (source lines 309-327): the path comes from `files[0]`
alone; the band numbers come from the `=`-suffix of every file. -/
def get_bands (files : List String) : PyResult (String × List Int) :=
  match files with
  | [] => .exn .indexError
  | f0 :: _ =>
    match bandsOf files with
    | .exn e => .exn e
    | .ok bs => .ok (pathOf f0, bs)

/-- The affine geo transform entries used by the source:
`transform[0]`, `transform[1]`, `transform[3]`, `transform[5]`. -/
structure GeoTransform where
  xinit : ℚ
  xsize : ℚ
  yinit : ℚ
  ysize : ℚ
deriving DecidableEq

/-- A pixel window: offsets and extents passed to `ReadAsArray`. -/
structure PixelWindow where
  colOff : Int
  rowOff : Int
  colCount : Int
  rowCount : Int
deriving DecidableEq

/-- Python `int()` on a (here, exact rational) quotient: truncation
toward zero. -/
def truncRat (q : ℚ) : Int :=
  if 0 ≤ q then ⌊q⌋ else -⌊-q⌋

/-- The pixel-window arithmetic of `read_croped_array` (source lines
384-399): corners `p1 = (bbox[0], bbox[3])`, `p2 = (bbox[2], bbox[1])`,
each coordinate mapped by `int((coord - origin) / size)`, read at
offset `(col1, row1)` with extent `(col2-col1+1, row2-row1+1)`.
Fewer than four bbox entries raise `IndexError`. -/
def crop_window (gt : GeoTransform) : List ℚ → PyResult PixelWindow
  | b0 :: b1 :: b2 :: b3 :: _ =>
    let p1 := (b0, b3)
    let p2 := (b2, b1)
    let row1 := truncRat ((p1.2 - gt.yinit) / gt.ysize)
    let col1 := truncRat ((p1.1 - gt.xinit) / gt.xsize)
    let row2 := truncRat ((p2.2 - gt.yinit) / gt.ysize)
    let col2 := truncRat ((p2.1 - gt.xinit) / gt.xsize)
    .ok ⟨col1, row1, col2 - col1 + 1, row2 - row1 + 1⟩
  | _ => .exn .indexError

/-- `read_croped_array` (source lines 382-400): compute the pixel
window and read it from the band ( `band.ReadAsArray` is the abstract
raster backend). -/
def read_croped_array (band : PixelWindow → List (List ℚ)) (gt : GeoTransform)
    (bq : List ℚ) : PyResult (List (List ℚ)) :=
  match crop_window gt bq with
  | .exn e => .exn e
  | .ok w => .ok (band w)

/-- An opened raster dataset, as consumed by `get_new_array`:
a geo transform and per-band windowed reads. -/
structure Raster where
  geotransform : GeoTransform
  getRasterBand : Int → PixelWindow → List (List ℚ)

/-- The per-cell effect of the three sequential masked assignments on
`array1` (source lines 424-426). -/
def classify1 (v : ℚ) : ℚ :=
  let v1 := if v < 40 then 0 else v
  let v2 := if 40 ≤ v1 ∧ v1 < 60 then 1 else v1
  if 60 ≤ v2 then 1 else v2

/-- The per-cell effect of the four sequential masked assignments on
`array2` (source lines 431-434). -/
def classify2 (v : ℚ) : ℚ :=
  let v1 := if 1 ≤ v ∧ v < 20 then 1 else v
  let v2 := if 20 ≤ v1 ∧ v1 < 40 then 1 else v1
  let v3 := if 40 ≤ v2 ∧ v2 < 60 then 2 else v2
  if 60 ≤ v3 then 2 else v3

/-- The per-cell effect of the four sequential masked assignments on
`array3` (source lines 439-442). -/
def classify3 (v : ℚ) : ℚ :=
  let v1 := if 1 ≤ v ∧ v < 20 then 1 else v
  let v2 := if 20 ≤ v1 ∧ v1 < 40 then 2 else v1
  let v3 := if 40 ≤ v2 ∧ v2 < 60 then 2 else v2
  if 60 ≤ v3 then 3 else v3

/-- `np.maximum` on two 2-D grids: elementwise maximum. -/
def npMax (g h : List (List ℚ)) : List (List ℚ) :=
  List.zipWith (List.zipWith max) g h

/-- Apply a per-cell function to every cell of a grid. -/
def mapGrid (f : ℚ → ℚ) (g : List (List ℚ)) : List (List ℚ) :=
  g.map (List.map f)

/-- `get_new_array` (source lines 403-446): open the single raster at
`path`, read the three ordered bands through the shared window, apply
the three per-position bin tables, and composite with `np.maximum`.
A backend failure to open the path models the `RuntimeError` /
unbound-`ds` crash. -/
def get_new_array (openR : String → Option Raster) (path : String)
    (bands : List Int) (bq : List ℚ) : PyResult (List (List ℚ)) :=
  match openR path with
  | none => .exn .openError
  | some ds =>
    match bands with
    | bA :: bB :: bC :: _ =>
      match read_croped_array (ds.getRasterBand bA) ds.geotransform bq with
      | .exn e => .exn e
      | .ok r1 =>
        match read_croped_array (ds.getRasterBand bB) ds.geotransform bq with
        | .exn e => .exn e
        | .ok r2 =>
          match read_croped_array (ds.getRasterBand bC) ds.geotransform bq with
          | .exn e => .exn e
          | .ok r3 =>
            .ok (npMax (npMax (mapGrid classify1 r1) (mapGrid classify2 r2))
                  (mapGrid classify3 r3))
    | _ => .exn .indexError

/-- The post-resolution part of `generate_vigilance` (source lines
595-611): check that three files were resolved, extract the path and
band numbers, order the bands according to the threshold class, and
build the composite grid. -/
def pipeline (openR : String → Option Raster) (sufix : String)
    (files : List String) (bq : List ℚ) : PyResult (Option (List (List ℚ))) :=
  if files.length = 3 then
    match get_bands files with
    | .exn e => .exn e
    | .ok (path, bands0) =>
      match (if sufix = "ERGE" then band_ordre_G_list bands0 else .ok bands0) with
      | .exn e => .exn e
      | .ok bands1 =>
        match (if sufix = "ERLE" then band_ordre_L_list bands1 else .ok bands1) with
        | .exn e => .exn e
        | .ok bands2 =>
          match get_new_array openR path bands2 bq with
          | .exn e => .exn e
          | .ok g => .ok (some g)
  else .ok none

/-- The validation front end of `generate_vigilance` (source lines
580-594): convert and check the bbox, require exactly three layers,
and run `valid_layer`; `ok none` models the typed failure
`return None`, and `ok (some _)` means control reaches the
`get_files` resolver call with the returned suffix and bbox. -/
def generate_vigilance_validate (layers bbox : List String) :
    PyResult (Option (String × List ℚ)) :=
  match convert_bbox bbox with
  | .exn e => .exn e
  | .ok none => .ok none
  | .ok (some bq) =>
    if layers.length = 3 then
      match valid_layer layers with
      | .exn e => .exn e
      | .ok none => .ok none
      | .ok (some (sufix, _, _, _)) => .ok (some (sufix, bq))
    else .ok none

/-- `generate_vigilance` (source lines 566-619) with the external
resolver (`get_files`) and raster backend abstracted: validation, then
resolution (a `None` from the resolver is the typed failure), then the
compositing pipeline.  The rendering tail is out of scope; success
carries the vigilance grid. -/
def generate_vigilance (openR : String → Option Raster)
    (resolve : List String → Option (List String))
    (layers bbox : List String) : PyResult (Option (List (List ℚ))) :=
  match generate_vigilance_validate layers bbox with
  | .exn e => .exn e
  | .ok none => .ok none
  | .ok (some (sufix, bq)) =>
    match resolve layers with
    | none => .ok none
    | some files => pipeline openR sufix files bq

/-- The spec's BinTable classifier (section 4.5): emit the severity
level of the greatest lower bound in the (ascending) table that does
not exceed the raw value, and 0 below the smallest lower bound.  Used
to compare the code's masked assignments against the spec's words. -/
def tableLookup (table : List (ℚ × ℚ)) (v : ℚ) : ℚ :=
  table.foldl (fun acc p => if p.1 ≤ v then p.2 else acc) 0

/-- The cell of a grid at row `i`, column `j`, when it exists. -/
def cellAt (g : List (List ℚ)) (i j : Nat) : Option ℚ :=
  (g.get? i).bind fun r => r.get? j

/-- Two grids have identical shape: the same row lengths in order. -/
def sameShape (g h : List (List ℚ)) : Prop :=
  g.map List.length = h.map List.length

/-- The compositing step of `get_new_array` (source lines 444-445):
two `np.maximum` applications over the three classified grids. -/
def combine_grids (g1 g2 g3 : List (List ℚ)) : List (List ℚ) :=
  npMax (npMax g1 g2) g3

/-- The spec's GeoWindowMapper formulas (section 4.4) with `floor`
replaced by truncation toward zero — the rounding the code actually
performs via Python `int()`. -/
def mapWindow_spec_trunc (gt : GeoTransform) (xmin ymin xmax ymax : ℚ) : PixelWindow :=
  let row1 := truncRat ((ymax - gt.yinit) / gt.ysize)
  let col1 := truncRat ((xmin - gt.xinit) / gt.xsize)
  let row2 := truncRat ((ymin - gt.yinit) / gt.ysize)
  let col2 := truncRat ((xmax - gt.xinit) / gt.xsize)
  ⟨col1, row1, col2 - col1 + 1, row2 - row1 + 1⟩

/-- The band-number suffix of a resolved file: the segment after the
last `=`. -/
def bandSuffix (f : String) : String :=
  (pySplit f '=').getLastD ""

/-- Closed form of the band-1 masked assignments. -/
theorem classify1_eq (v : ℚ) : classify1 v = if v < 40 then 0 else 1 := by
  simp only [classify1]
  split_ifs <;> first
    | rfl
    | (simp only [not_and_or, not_lt, not_le] at *
       try casesm* _ ∨ _
       all_goals linarith)

/-- Closed form of the band-2 masked assignments: raw values below 1
are left unchanged. -/
theorem classify2_eq (v : ℚ) :
    classify2 v = if v < 1 then v else if v < 40 then 1 else 2 := by
  simp only [classify2]
  split_ifs <;> first
    | rfl
    | (simp only [not_and_or, not_lt, not_le] at *
       try casesm* _ ∨ _
       all_goals linarith)

/-- Closed form of the band-3 masked assignments: raw values below 1
are left unchanged. -/
theorem classify3_eq (v : ℚ) :
    classify3 v = if v < 1 then v else if v < 20 then 1 else if v < 60 then 2 else 3 := by
  simp only [classify3]
  split_ifs <;> first
    | rfl
    | (simp only [not_and_or, not_lt, not_le] at *
       try casesm* _ ∨ _
       all_goals linarith)

/-- Claim C2 (amended): band position 1 classifies every cell to the
level of the greatest lower bound of its table not exceeding the raw
value (0 below 40); band positions 2 and 3 do so only for raw values
at or above their smallest lower bound 1, and leave any raw value
strictly below 1 unchanged instead of emitting level 0. -/
theorem c2_classification : ∀ v : ℚ,
    classify1 v = tableLookup [(40, 1), (60, 1)] v ∧
    classify2 v = (if 1 ≤ v then tableLookup [(1, 1), (20, 1), (40, 2), (60, 2)] v else v) ∧
    classify3 v = (if 1 ≤ v then tableLookup [(1, 1), (20, 2), (40, 2), (60, 3)] v else v) := by
  intro v
  refine ⟨?_, ?_, ?_⟩
  · rw [classify1_eq]
    simp only [tableLookup, List.foldl_cons, List.foldl_nil]
    split_ifs <;> first | rfl | linarith
  · rw [classify2_eq]
    simp only [tableLookup, List.foldl_cons, List.foldl_nil]
    split_ifs <;> first | rfl | linarith
  · rw [classify3_eq]
    simp only [tableLookup, List.foldl_cons, List.foldl_nil]
    split_ifs <;> first | rfl | linarith

/-- Claim C2 counterexample: the raw value 1/2 is strictly below the
smallest lower bound (1) of the band-2 table, yet the classification
step leaves it at 1/2 instead of emitting severity level 0. -/
theorem c2_cex :
    mkRat 1 2 < 1 ∧ classify2 (mkRat 1 2) = mkRat 1 2 ∧ mkRat 1 2 ≠ (0 : ℚ) := by decide

/-- Claim C6: for each fixed band position, the classification step is
monotonic non-decreasing in the raw value, and a raw value exactly at a
table boundary receives that boundary's level (inclusive lower
bounds). -/
theorem c6_classifier_monotone : ∀ a b : ℚ, b ≤ a →
    (classify1 b ≤ classify1 a ∧ classify2 b ≤ classify2 a ∧ classify3 b ≤ classify3 a) ∧
    (classify1 40 = 1 ∧ classify1 60 = 1 ∧
      classify2 1 = 1 ∧ classify2 20 = 1 ∧ classify2 40 = 2 ∧ classify2 60 = 2 ∧
      classify3 1 = 1 ∧ classify3 20 = 2 ∧ classify3 40 = 2 ∧ classify3 60 = 3) := by
  intro a b h
  constructor
  · refine ⟨?_, ?_, ?_⟩
    · rw [classify1_eq, classify1_eq]
      split_ifs <;> linarith
    · rw [classify2_eq, classify2_eq]
      split_ifs <;> linarith
    · rw [classify3_eq, classify3_eq]
      split_ifs <;> linarith
  · decide

/-- Witness for C6 at the concrete pair (1, 0). -/
theorem c6_classifier_monotone_w : classify1 0 ≤ classify1 1 :=
  ((c6_classifier_monotone 1 0 (by decide)).1).1

/-- Claim C3: on pairwise-distinct band indices `band_ordre_G` returns
them strictly ascending and `band_ordre_L` strictly descending, and on
every input (ties included) each agrees with a correct three-element
stable sort (insertion sort) for its direction. -/
theorem c3_band_ordre : ∀ a b c : ℤ,
    ((a ≠ b ∧ a ≠ c ∧ b ≠ c) →
      ((band_ordre_G (a, b, c)).1 < (band_ordre_G (a, b, c)).2.1 ∧
        (band_ordre_G (a, b, c)).2.1 < (band_ordre_G (a, b, c)).2.2) ∧
      ((band_ordre_L (a, b, c)).2.1 < (band_ordre_L (a, b, c)).1 ∧
        (band_ordre_L (a, b, c)).2.2 < (band_ordre_L (a, b, c)).2.1)) ∧
    tripleList (band_ordre_G (a, b, c)) = List.insertionSort (fun x y => x ≤ y) [a, b, c] ∧
    tripleList (band_ordre_L (a, b, c)) = List.insertionSort (fun x y => y ≤ x) [a, b, c] := by
  intro a b c
  refine ⟨?_, ?_, ?_⟩
  · intro h
    obtain ⟨h1, h2, h3⟩ := h
    simp only [band_ordre_G, band_ordre_L]
    split_ifs <;> simp_all <;> omega
  · simp only [band_ordre_G, tripleList, List.insertionSort, List.orderedInsert]
    split_ifs <;> simp_all
    all_goals (try (split_ifs <;> simp_all))
    all_goals omega
  · simp only [band_ordre_L, tripleList, List.insertionSort, List.orderedInsert]
    split_ifs <;> simp_all
    all_goals (try (split_ifs <;> simp_all))
    all_goals omega

/-- Witness for C3 at the concrete distinct triple (3, 1, 2). -/
theorem c3_band_ordre_w :
    (band_ordre_G (3, 1, 2)).1 < (band_ordre_G (3, 1, 2)).2.1 ∧
      (band_ordre_G (3, 1, 2)).2.1 < (band_ordre_G (3, 1, 2)).2.2 :=
  ((c3_band_ordre 3 1 2).1 (by decide)).1

/-- A cell of an elementwise maximum decomposes into the two cells it
came from. -/
theorem cellAt_npMax (g h : List (List ℚ)) (i j : Nat) (v : ℚ)
    (hv : cellAt (npMax g h) i j = some v) :
    ∃ a b, cellAt g i j = some a ∧ cellAt h i j = some b ∧ v = max a b := by
  simp only [cellAt, npMax] at hv ⊢
  obtain ⟨row, hrow, hj⟩ : ∃ row,
      (List.zipWith (List.zipWith max) g h).get? i = some row ∧ row.get? j = some v := by
    cases hr : (List.zipWith (List.zipWith max) g h).get? i with
    | none => rw [hr] at hv; simp at hv
    | some row =>
      rw [hr] at hv
      simp only [Option.some_bind] at hv
      exact ⟨row, rfl, hv⟩
  rw [List.get?_zipWith_eq_some] at hrow
  obtain ⟨rg, rh, hg, hh, hrow2⟩ := hrow
  subst hrow2
  rw [List.get?_zipWith_eq_some] at hj
  obtain ⟨a, b, ha, hb, hab⟩ := hj
  refine ⟨a, b, ?_, ?_, hab.symm⟩
  · rw [hg]
    simpa using ha
  · rw [hh]
    simpa using hb

/-- Elementwise maximum of rows is commutative. -/
theorem zipWith_max_comm (l m : List ℚ) :
    List.zipWith max l m = List.zipWith max m l :=
  List.zipWith_comm_of_comm max max_comm l m

/-- Elementwise maximum of rows is associative. -/
theorem zipWith_max_assoc : ∀ l m n : List ℚ,
    List.zipWith max (List.zipWith max l m) n = List.zipWith max l (List.zipWith max m n)
  | [], _, _ => rfl
  | _ :: _, [], _ => rfl
  | _ :: _, _ :: _, [] => rfl
  | x :: l, y :: m, z :: n => by
    simp only [List.zipWith, max_assoc]
    exact congrArg _ (zipWith_max_assoc l m n)

/-- `np.maximum` on grids is commutative. -/
theorem npMax_comm (g h : List (List ℚ)) : npMax g h = npMax h g :=
  List.zipWith_comm_of_comm _ (fun r s => zipWith_max_comm r s) g h

/-- `np.maximum` on grids is associative. -/
theorem npMax_assoc : ∀ g h k : List (List ℚ),
    npMax (npMax g h) k = npMax g (npMax h k)
  | [], _, _ => rfl
  | _ :: _, [], _ => rfl
  | _ :: _, _ :: _, [] => rfl
  | r :: g, s :: h, t :: k => by
    simp only [npMax, List.zipWith]
    exact congrArg₂ _ (zipWith_max_assoc r s t) (npMax_assoc g h k)

/-- Claim C4: the composited grid dominates each of the three
classified grids at every cell, and is invariant under every
permutation of the three inputs. -/
theorem c4_compositor : ∀ g1 g2 g3 : List (List ℚ), sameShape g1 g2 → sameShape g2 g3 →
    (∀ i j a v, cellAt g1 i j = some a → cellAt (combine_grids g1 g2 g3) i j = some v → a ≤ v) ∧
    (∀ i j a v, cellAt g2 i j = some a → cellAt (combine_grids g1 g2 g3) i j = some v → a ≤ v) ∧
    (∀ i j a v, cellAt g3 i j = some a → cellAt (combine_grids g1 g2 g3) i j = some v → a ≤ v) ∧
    (combine_grids g1 g2 g3 = combine_grids g1 g3 g2 ∧
      combine_grids g1 g2 g3 = combine_grids g2 g1 g3 ∧
      combine_grids g1 g2 g3 = combine_grids g2 g3 g1 ∧
      combine_grids g1 g2 g3 = combine_grids g3 g1 g2 ∧
      combine_grids g1 g2 g3 = combine_grids g3 g2 g1) := by
  intro g1 g2 g3 _ _
  have key : ∀ i j a v, cellAt (combine_grids g1 g2 g3) i j = some v →
      ((cellAt g1 i j = some a ∨ cellAt g2 i j = some a ∨ cellAt g3 i j = some a) → a ≤ v) := by
    intro i j a v hv hcase
    obtain ⟨x, c, hx, hc, rfl⟩ := cellAt_npMax _ _ _ _ _ hv
    obtain ⟨a1, b1, ha1, hb1, rfl⟩ := cellAt_npMax _ _ _ _ _ hx
    rcases hcase with h | h | h
    · rw [ha1] at h
      obtain rfl : a1 = a := by injection h
      exact le_trans (le_max_left _ _) (le_max_left _ _)
    · rw [hb1] at h
      obtain rfl : b1 = a := by injection h
      exact le_trans (le_max_right _ _) (le_max_left _ _)
    · rw [hc] at h
      obtain rfl : c = a := by injection h
      exact le_max_right _ _
  refine ⟨fun i j a v h1 h2 => key i j a v h2 (Or.inl h1),
    fun i j a v h1 h2 => key i j a v h2 (Or.inr (Or.inl h1)),
    fun i j a v h1 h2 => key i j a v h2 (Or.inr (Or.inr h1)), ?_, ?_, ?_, ?_, ?_⟩
  · rw [combine_grids, combine_grids, npMax_assoc, npMax_assoc, npMax_comm g2 g3]
  · rw [combine_grids, combine_grids, npMax_comm g1 g2]
  · rw [combine_grids, combine_grids, npMax_assoc, npMax_comm g1 (npMax g2 g3)]
  · rw [combine_grids, combine_grids, npMax_comm g3 g1, npMax_assoc, npMax_assoc,
      npMax_comm g2 g3]
  · rw [combine_grids, combine_grids, npMax_comm g3 g2, npMax_assoc,
      npMax_comm g1 (npMax g2 g3)]

/-- Witness for C4 on concrete one-cell grids. -/
theorem c4_compositor_w :
    (0 : ℚ) ≤ 2 ∧ combine_grids [[0]] [[2]] [[1]] = combine_grids [[1]] [[2]] [[0]] := by
  refine ⟨?_, ?_⟩
  · exact (c4_compositor [[0]] [[2]] [[1]] rfl rfl).1 0 0 0 2 (by decide) (by decide)
  · exact (c4_compositor [[0]] [[2]] [[1]] rfl rfl).2.2.2.2.2.2.2

/-- Claim C5 counterexample: with origin 0 and pixel size 1, the bbox
ymax = -3/2 yields rowOffset -1 (truncation toward zero), while the
claimed floor formula yields -2. -/
theorem c5_cex :
    crop_window ⟨0, 1, 0, 1⟩ [0, -3, 1, -3 / 2] = .ok ⟨0, -1, 2, -1⟩ ∧
    (⌊(((-3 / 2 : ℚ) - 0) / 1 : ℚ)⌋ : Int) = -2 := by
  have h32 : (⌊(3 / 2 : ℚ)⌋ : Int) = 1 := by
    rw [Int.floor_eq_iff]
    norm_num
  have h3 : (⌊(3 : ℚ)⌋ : Int) = 3 := by
    rw [Int.floor_eq_iff]
    norm_num
  have hm : (⌊((-3 / 2 : ℚ))⌋ : Int) = -2 := by
    rw [Int.floor_eq_iff]
    norm_num
  constructor
  · simp only [crop_window, truncRat]
    norm_num [h32, h3]
  · norm_num [hm]

/-- Claim C5 (amended): `read_croped_array` reads the window given by
the spec's four quotient formulas with floor replaced by truncation
toward zero, with the stated offsets and extents; truncation agrees
with floor exactly when the quotient is nonnegative. -/
theorem c5_window : ∀ (gt : GeoTransform) (b0 b1 b2 b3 : ℚ)
    (band : PixelWindow → List (List ℚ)),
    read_croped_array band gt [b0, b1, b2, b3] =
      .ok (band (mapWindow_spec_trunc gt b0 b1 b2 b3)) ∧
    (∀ q : ℚ, 0 ≤ q → truncRat q = ⌊q⌋) := by
  intro gt b0 b1 b2 b3 band
  constructor
  · rfl
  · intro q hq
    simp [truncRat, hq]

/-- Witness for C5 at the concrete nonnegative quotient 5/2. -/
theorem c5_window_w : truncRat (mkRat 5 2) = ⌊(mkRat 5 2 : ℚ)⌋ :=
  (c5_window ⟨0, 1, 0, 1⟩ 0 0 0 0 (fun _ => [])).2 (mkRat 5 2) (by decide)

/-- Claim C9: on a 4-element numeric bbox the range check accepts
exactly when -180 ≤ xmin < xmax ≤ 180 and -90 ≤ ymin < ymax ≤ 90, and
any request whose bbox has xmin > xmax is answered with the typed
failure (None) before the layers are even counted. -/
theorem c9_bbox_validation : ∀ q0 q1 q2 q3 : ℚ,
    (bbox_check [q0, q1, q2, q3] = .ok (some [q0, q1, q2, q3]) ↔
      (-180 ≤ q0 ∧ q0 < q2 ∧ q2 ≤ 180 ∧ -90 ≤ q1 ∧ q1 < q3 ∧ q3 ≤ 90)) ∧
    (∀ (layers : List String) (s0 s1 s2 s3 : String),
      pyFloat s0 = some q0 → pyFloat s1 = some q1 → pyFloat s2 = some q2 →
      pyFloat s3 = some q3 → q2 < q0 →
      generate_vigilance_validate layers [s0, s1, s2, s3] = .ok none) := by
  intro q0 q1 q2 q3
  have hcheck : q2 < q0 → bbox_check [q0, q1, q2, q3] = .ok none := by
    intro hlt
    simp only [bbox_check]
    split_ifs with h1 h2 h3 h4 <;> first | rfl | (exfalso; exact absurd h2.1 (not_lt.2 hlt.le))
  constructor
  · simp only [bbox_check]
    split_ifs with h1 h2 h3 h4 <;>
      constructor <;> intro hc <;>
        first
          | rfl
          | (exact ⟨by linarith, h2.1, h2.2, by linarith, h4.1, h4.2⟩)
          | (exfalso
             obtain ⟨c1, c2, c3, c4, c5, c6⟩ := hc
             simp only [not_and_or, not_lt, not_le, ge_iff_le] at *
             try casesm* _ ∨ _
             all_goals linarith)
          | (simp at hc)
  · intro layers s0 s1 s2 s3 h0 h1 h2 h3 hlt
    simp only [generate_vigilance_validate, convert_bbox, floatList, h0, h1, h2, h3,
      hcheck hlt]

/-- Witness for C9: a concrete request with xmin = 2 > xmax = 1 is
rejected with the typed failure. -/
theorem c9_bbox_validation_w :
    generate_vigilance_validate ["x"] ["2", "0", "1", "1"] = .ok none :=
  (c9_bbox_validation 2 0 1 1).2 ["x"] "2" "0" "1" "1"
    (by decide) (by decide) (by decide) (by decide) (by decide)

/-- Unfolding of `valid_layer` on three layer strings whose individual
parses are known: the loop's suffix checks in order, then the
post-loop prefix and suffix comparisons. -/
theorem valid_layer_three (l0 l1 l2 : String) (p0 p1 p2 : ParsedLayer)
    (h0 : parse_one l0 = .ok p0) (h1 : parse_one l1 = .ok p1)
    (h2 : parse_one l2 = .ok p2) :
    valid_layer [l0, l1, l2] =
      if p0.sufix = "ERGE" ∨ p0.sufix = "ERLE" then
        if p1.sufix = "ERGE" ∨ p1.sufix = "ERLE" then
          if p2.sufix = "ERGE" ∨ p2.sufix = "ERLE" then
            if p0.prefix_ = p1.prefix_ then
              if p1.prefix_ = p2.prefix_ then
                if p0.sufix = p1.sufix then
                  if p1.sufix = p2.sufix then
                    .ok (some (p0.sufix, p0.prefix_, p0.model,
                      [p0.treshold, p1.treshold, p2.treshold]))
                  else .ok none
                else .ok none
              else .ok none
            else .ok none
          else .ok none
        else .ok none
      else .ok none := by
  simp only [valid_layer, parse_all, h0, h1, h2]
  split_ifs <;> simp_all

/-- Claim C1 counterexample: a triple with two different models (GEPS
and REPS) but equal variables and threshold classes is accepted by
`valid_layer`, so a model mismatch is not rejected. -/
theorem c1_cex :
    valid_layer ["GEPS.DIAG.T8.ERGE10", "REPS.DIAG.T8.ERGE20", "GEPS.DIAG.T8.ERGE30"] =
      .ok (some ("ERGE", "T8", "GEPS", [10, 20, 30])) ∧ ("GEPS" : String) ≠ "REPS" := by
  decide

/-- Claim C1 (amended): for three parseable layer specs, `valid_layer`
accepts exactly when the variable (prefix) and the threshold class
(suffix) are pairwise equal across all three and the class code is
ERGE or ERLE; the model field is never compared, so triples differing
only in model are accepted. -/
theorem c1_triple_validation : ∀ (l0 l1 l2 : String) (p0 p1 p2 : ParsedLayer),
    parse_one l0 = .ok p0 → parse_one l1 = .ok p1 → parse_one l2 = .ok p2 →
    ((((p0.sufix = "ERGE" ∨ p0.sufix = "ERLE") ∧ p0.prefix_ = p1.prefix_ ∧
        p1.prefix_ = p2.prefix_ ∧ p0.sufix = p1.sufix ∧ p1.sufix = p2.sufix) →
      valid_layer [l0, l1, l2] =
        .ok (some (p0.sufix, p0.prefix_, p0.model, [p0.treshold, p1.treshold, p2.treshold]))) ∧
    (¬ ((p0.sufix = "ERGE" ∨ p0.sufix = "ERLE") ∧ p0.prefix_ = p1.prefix_ ∧
        p1.prefix_ = p2.prefix_ ∧ p0.sufix = p1.sufix ∧ p1.sufix = p2.sufix) →
      valid_layer [l0, l1, l2] = .ok none)) := by
  intro l0 l1 l2 p0 p1 p2 h0 h1 h2
  rw [valid_layer_three l0 l1 l2 p0 p1 p2 h0 h1 h2]
  constructor
  · rintro ⟨hv, hp1, hp2, hs1, hs2⟩
    rw [if_pos hv, if_pos (hs1 ▸ hv), if_pos ((hs1.trans hs2) ▸ hv),
      if_pos hp1, if_pos hp2, if_pos hs1, if_pos hs2]
  · intro hneg
    split_ifs with a1 a2 a3 a4 a5 a6 a7 <;>
      first
        | rfl
        | (exact absurd ⟨a1, a4, a5, a6, a7⟩ hneg)

/-- Witness for C1 on a concrete matching triple. -/
theorem c1_triple_validation_w :
    valid_layer ["GEPS.DIAG.T8.ERGE10", "GEPS.DIAG.T8.ERGE20", "GEPS.DIAG.T8.ERGE30"] =
      .ok (some ("ERGE", "T8", "GEPS", [10, 20, 30])) :=
  (c1_triple_validation "GEPS.DIAG.T8.ERGE10" "GEPS.DIAG.T8.ERGE20" "GEPS.DIAG.T8.ERGE30"
    ⟨"GEPS", "T8", "ERGE", 10⟩ ⟨"GEPS", "T8", "ERGE", 20⟩ ⟨"GEPS", "T8", "ERGE", 30⟩
    (by decide) (by decide) (by decide)).1 (by decide)

/-- If every bbox entry parses as a float, the conversion loop
succeeds and preserves the length. -/
theorem floatList_ok : ∀ bbox : List String, (∀ s ∈ bbox, (pyFloat s).isSome = true) →
    ∃ qs, floatList bbox = .ok qs ∧ qs.length = bbox.length
  | [], _ => ⟨[], rfl, rfl⟩
  | s :: ss, h => by
    have hs : (pyFloat s).isSome = true := h s (List.mem_cons_self s ss)
    obtain ⟨q, hq⟩ := Option.isSome_iff_exists.1 hs
    obtain ⟨qs, hqs, hlen⟩ := floatList_ok ss (fun t ht => h t (List.mem_cons_of_mem s ht))
    exact ⟨q :: qs, by simp only [floatList, hq, hqs], by simp [hlen]⟩

/-- The range check never raises on a list of four or more entries. -/
theorem bbox_check_four (q0 q1 q2 q3 : ℚ) (rest : List ℚ) :
    ∃ r, bbox_check (q0 :: q1 :: q2 :: q3 :: rest) = .ok r := by
  simp only [bbox_check]
  split_ifs <;> exact ⟨_, rfl⟩

/-- If every layer parses, the loop of `valid_layer` never raises, and
on full success the parsed list has the same length as the input. -/
theorem parse_all_ok : ∀ layers : List String, (∀ l ∈ layers, (parse_one l).isOk = true) →
    ∃ r, parse_all layers = .ok r ∧ ∀ ps, r = some ps → ps.length = layers.length
  | [], _ => ⟨some [], rfl, fun ps hps => by cases hps; rfl⟩
  | l :: ls, h => by
    have hl : (parse_one l).isOk = true := h l (List.mem_cons_self l ls)
    obtain ⟨p, hp⟩ : ∃ p, parse_one l = .ok p := by
      cases hr : parse_one l with
      | ok p => exact ⟨p, rfl⟩
      | exn e => rw [hr] at hl; simp [PyResult.isOk] at hl
    obtain ⟨r, hr, hlen⟩ := parse_all_ok ls (fun t ht => h t (List.mem_cons_of_mem l ht))
    by_cases hv : p.sufix = "ERGE" ∨ p.sufix = "ERLE"
    · cases r with
      | none => exact ⟨none, by simp only [parse_all, hp, if_pos hv, hr], by simp⟩
      | some ps =>
        refine ⟨some (p :: ps), by simp only [parse_all, hp, if_pos hv, hr], ?_⟩
        intro qs hqs
        cases hqs
        simp [hlen ps rfl]
    · exact ⟨none, by simp only [parse_all, hp, if_neg hv], by simp⟩

/-- With exactly three parseable layers, `valid_layer` never raises. -/
theorem valid_layer_isOk (layers : List String) (hlen : layers.length = 3)
    (h : ∀ l ∈ layers, (parse_one l).isOk = true) :
    (valid_layer layers).isOk = true := by
  obtain ⟨r, hr, hps⟩ := parse_all_ok layers h
  cases r with
  | none => simp [valid_layer, hr, PyResult.isOk]
  | some ps =>
    have hps3 : ps.length = 3 := (hps ps rfl).trans hlen
    match ps, hps3 with
    | [p0, p1, p2], _ =>
      simp only [valid_layer, hr]
      split_ifs <;> simp [PyResult.isOk]

/-- Claim C7 counterexample: a bbox entry that is not a number makes
the engine raise `ValueError` instead of returning a failure value. -/
theorem c7_cex :
    generate_vigilance_validate
      ["GEPS.DIAG.T8.ERGE10", "GEPS.DIAG.T8.ERGE20", "GEPS.DIAG.T8.ERGE30"]
      ["abc", "0", "1", "1"] = .exn .valueError := by decide

/-- Claim C7 (amended): the engine returns a failure value rather than
raising only on the well-formed side of its inputs: when all four bbox
entries parse as numbers and every layer identifier parses (at least
four dot-segments with a numeric threshold fragment), every validation
outcome — wrong layer counts included — is a returned value; outside
that shape the uncaught `ValueError` / `IndexError` of `c7_cex` and
`c8_cex` escape. -/
theorem c7_engine_no_crash : ∀ layers bbox : List String,
    (∀ l ∈ layers, (parse_one l).isOk = true) →
    bbox.length = 4 → (∀ s ∈ bbox, (pyFloat s).isSome = true) →
    (generate_vigilance_validate layers bbox).isOk = true := by
  intro layers bbox hlp hb4 hbf
  obtain ⟨qs, hqs, hqlen⟩ := floatList_ok bbox hbf
  have hq4 : qs.length = 4 := hqlen.trans hb4
  match qs, hq4 with
  | [q0, q1, q2, q3], _ =>
    obtain ⟨r, hr⟩ := bbox_check_four q0 q1 q2 q3 []
    simp only [generate_vigilance_validate, convert_bbox, hqs, hr]
    cases r with
    | none => simp [PyResult.isOk]
    | some bq =>
      by_cases hl3 : layers.length = 3
      · simp only [if_pos hl3]
        have hv := valid_layer_isOk layers hl3 hlp
        cases hvl : valid_layer layers with
        | exn e => rw [hvl] at hv; simp [PyResult.isOk] at hv
        | ok res =>
          cases res with
          | none => simp [PyResult.isOk]
          | some t =>
            obtain ⟨suf, pr, md, ts⟩ := t
            simp [PyResult.isOk]
      · simp [if_neg hl3, PyResult.isOk]

/-- Witness for C7 on a concrete well-formed request. -/
theorem c7_engine_no_crash_w :
    (generate_vigilance_validate
      ["GEPS.DIAG.T8.ERGE10", "GEPS.DIAG.T8.ERGE25", "GEPS.DIAG.T8.ERGE30"]
      ["-140", "35", "-44", "83"]).isOk = true :=
  c7_engine_no_crash _ _ (by decide) (by decide) (by decide)

/-- A prefix (variable) mismatch makes `valid_layer` return the
failure value on three parseable layers. -/
theorem valid_layer_prefix_mismatch (l0 l1 l2 : String) (p0 p1 p2 : ParsedLayer)
    (h0 : parse_one l0 = .ok p0) (h1 : parse_one l1 = .ok p1)
    (h2 : parse_one l2 = .ok p2)
    (hmis : ¬(p0.prefix_ = p1.prefix_ ∧ p1.prefix_ = p2.prefix_)) :
    valid_layer [l0, l1, l2] = .ok none := by
  rw [valid_layer_three l0 l1 l2 p0 p1 p2 h0 h1 h2]
  split_ifs with a1 a2 a3 a4 a5 a6 a7 <;>
    first
      | rfl
      | (exact absurd ⟨a4, a5⟩ hmis)

/-- Claim C8 counterexample: the spec's own example identifiers
`["X.ERGE10","Y.ERGE20","X.ERGE30"]` make the engine raise
`IndexError` (they have too few dot-segments), not return the typed
`InvalidInput` failure. -/
theorem c8_cex :
    generate_vigilance_validate ["X.ERGE10", "Y.ERGE20", "X.ERGE30"]
        ["-140", "35", "-44", "83"] = .exn .indexError ∧
      (PyResult.exn .indexError : PyResult (Option (String × List ℚ))) ≠ .ok none := by
  decide

/-- Claim C8 (amended): for a valid bbox and three parseable layer
identifiers whose variables mismatch, the engine returns the typed
failure before resolution, and its result does not depend on the
resolver or the raster backend at all — the resolver is never called.
(The spec's literal example identifiers instead raise `IndexError`,
per `c8_cex`, likewise before any resolver call.) -/
theorem c8_mismatch_no_resolver : ∀ (l0 l1 l2 : String) (p0 p1 p2 : ParsedLayer)
    (bbox : List String) (bq : List ℚ),
    parse_one l0 = .ok p0 → parse_one l1 = .ok p1 → parse_one l2 = .ok p2 →
    ¬(p0.prefix_ = p1.prefix_ ∧ p1.prefix_ = p2.prefix_) →
    convert_bbox bbox = .ok (some bq) →
    generate_vigilance_validate [l0, l1, l2] bbox = .ok none ∧
    (∀ (openR : String → Option Raster) (res1 res2 : List String → Option (List String)),
      generate_vigilance openR res1 [l0, l1, l2] bbox = .ok none ∧
      generate_vigilance openR res1 [l0, l1, l2] bbox =
        generate_vigilance openR res2 [l0, l1, l2] bbox) := by
  intro l0 l1 l2 p0 p1 p2 bbox bq h0 h1 h2 hmis hbb
  have hval : generate_vigilance_validate [l0, l1, l2] bbox = .ok none := by
    simp only [generate_vigilance_validate, hbb, List.length_cons, List.length_nil,
      if_pos rfl, valid_layer_prefix_mismatch l0 l1 l2 p0 p1 p2 h0 h1 h2 hmis, ite_self]
  refine ⟨hval, fun openR res1 res2 => ⟨?_, ?_⟩⟩
  · simp only [generate_vigilance, hval]
  · simp only [generate_vigilance, hval]

/-- Witness for C8 on a concrete parseable mismatched triple. -/
theorem c8_mismatch_no_resolver_w :
    generate_vigilance_validate
      ["GEPS.DIAG.X8.ERGE10", "GEPS.DIAG.Y8.ERGE20", "GEPS.DIAG.X8.ERGE30"]
      ["-140", "35", "-44", "83"] = .ok none :=
  (c8_mismatch_no_resolver "GEPS.DIAG.X8.ERGE10" "GEPS.DIAG.Y8.ERGE20" "GEPS.DIAG.X8.ERGE30"
    ⟨"GEPS", "X8", "ERGE", 10⟩ ⟨"GEPS", "Y8", "ERGE", 20⟩ ⟨"GEPS", "X8", "ERGE", 30⟩
    ["-140", "35", "-44", "83"] [-140, 35, -44, 83]
    (by decide) (by decide) (by decide) (by decide) (by decide)).1

/-- Claim C10: for a resolved triple, the opened raster path comes
from the first file alone, the whole post-resolution computation
depends on the raster backend only through that single path, and the
second and third files matter only through their band-number suffixes
— their paths never influence the output grid. -/
theorem c10_single_file : ∀ (o1 o2 : String → Option Raster) (suf f0 f1 f2 g1 g2 : String)
    (bq : List ℚ),
    bandSuffix f1 = bandSuffix g1 → bandSuffix f2 = bandSuffix g2 →
    o1 (pathOf f0) = o2 (pathOf f0) →
    (∀ pb, get_bands [f0, f1, f2] = .ok pb → pb.1 = pathOf f0) ∧
    pipeline o1 suf [f0, f1, f2] bq = pipeline o2 suf [f0, g1, g2] bq := by
  intro o1 o2 suf f0 f1 f2 g1 g2 bq hf1 hf2 ho
  have hb1 : bandOf f1 = bandOf g1 := by
    simp only [bandOf, bandSuffix] at hf1 ⊢
    rw [hf1]
  have hb2 : bandOf f2 = bandOf g2 := by
    simp only [bandOf, bandSuffix] at hf2 ⊢
    rw [hf2]
  constructor
  · intro pb hpb
    simp only [get_bands] at hpb
    cases hbs : bandsOf [f0, f1, f2] with
    | exn e => rw [hbs] at hpb; cases hpb
    | ok bs => rw [hbs] at hpb; cases hpb; rfl
  · simp only [pipeline, get_bands, bandsOf, hb1, hb2]
    cases hb0 : bandOf f0 with
    | exn e => rfl
    | ok b0 =>
      cases hbg1 : bandOf g1 with
      | exn e => rfl
      | ok bA =>
        cases hbg2 : bandOf g2 with
        | exn e => rfl
        | ok bB =>
          simp only [get_new_array, ho]
          rfl

/-- Witness for C10: concrete resolved files differing only in the
paths of the second and third entries give identical pipelines. -/
theorem c10_single_file_w :
    pipeline (fun _ => none) "ERGE" ["abcdef?x=1", "p=2", "r=3"] [] =
      pipeline (fun _ => none) "ERGE" ["abcdef?x=1", "q=2", "s=3"] [] :=
  (c10_single_file (fun _ => none) (fun _ => none) "ERGE" "abcdef?x=1"
    "p=2" "r=3" "q=2" "s=3" [] (by decide) (by decide) rfl).2
